import Mathlib

/-!
# Verification of the GitHub webhook listener

A shallow embedding, in Lean 4, of the webhook listener found in
`github_webhook_listener.py`, together with theorems settling the frozen
claims about its specification.

Modelling conventions:
* Python `bytes` values are `List Nat` with every element a byte value.
* Python `str` values are Lean `String`; the Python string operations used by
  the listener (`startswith`, slicing `[7:]`, truthiness) act on the sequence
  of code points, so they are defined here through `String.data`.
* Python `None` for an optional header is `Option.none`.
* The standard-library calls `hashlib.sha256`, `hmac.new(...).hexdigest()` and
  UTF-8 encoding are implemented concretely below, following FIPS 180-4 and
  RFC 2104, since the listener's behaviour depends on their actual values.
* `hmac.compare_digest` is modelled from its documented behaviour on `str`
  arguments: it raises `TypeError` when either string is not ASCII-only, and
  otherwise scans the whole zipped contents, accumulating a bitwise
  difference, instead of short-circuiting.
-/

/-! ## 32-bit arithmetic helpers (machine words as `Nat` reduced mod 2^32) -/

/-- Reduce a natural number to a 32-bit word. -/
def w32 (n : Nat) : Nat := n % 4294967296

/-- Right rotation of a 32-bit word by `n` bits. -/
def rotr32 (n x : Nat) : Nat := w32 ((x >>> n) ||| (x <<< (32 - n)))

/-- Bitwise complement within 32 bits. -/
def not32 (x : Nat) : Nat := x ^^^ 4294967295

/-! ## SHA-256 (FIPS 180-4), over byte lists -/

/-- SHA-256 `Ch` function. -/
def shaCh (x y z : Nat) : Nat := (x &&& y) ^^^ (not32 x &&& z)

/-- SHA-256 `Maj` function. -/
def shaMaj (x y z : Nat) : Nat := (x &&& y) ^^^ (x &&& z) ^^^ (y &&& z)

/-- SHA-256 big sigma-0. -/
def bigSigma0 (x : Nat) : Nat := rotr32 2 x ^^^ rotr32 13 x ^^^ rotr32 22 x

/-- SHA-256 big sigma-1. -/
def bigSigma1 (x : Nat) : Nat := rotr32 6 x ^^^ rotr32 11 x ^^^ rotr32 25 x

/-- SHA-256 small sigma-0. -/
def smallSigma0 (x : Nat) : Nat := rotr32 7 x ^^^ rotr32 18 x ^^^ (x >>> 3)

/-- SHA-256 small sigma-1. -/
def smallSigma1 (x : Nat) : Nat := rotr32 17 x ^^^ rotr32 19 x ^^^ (x >>> 10)

/-- The 64 SHA-256 round constants. -/
def sha256K : List Nat :=
  [1116352408, 1899447441, 3049323471, 3921009573, 961987163, 1508970993,
   2453635748, 2870763221, 3624381080, 310598401, 607225278, 1426881987,
   1925078388, 2162078206, 2614888103, 3248222580, 3835390401, 4022224774,
   264347078, 604807628, 770255983, 1249150122, 1555081692, 1996064986,
   2554220882, 2821834349, 2952996808, 3210313671, 3336571891, 3584528711,
   113926993, 338241895, 666307205, 773529912, 1294757372, 1396182291,
   1695183700, 1986661051, 2177026350, 2456956037, 2730485921, 2820302411,
   3259730800, 3345764771, 3516065817, 3600352804, 4094571909, 275423344,
   430227734, 506948616, 659060556, 883997877, 958139571, 1322822218,
   1537002063, 1747873779, 1955562222, 2024104815, 2227730452, 2361852424,
   2428436474, 2756734187, 3204031479, 3329325298]

/-- The SHA-256 initial hash value. -/
def sha256Init : List Nat :=
  [1779033703, 3144134277, 1013904242, 2773480762, 1359893119, 2600822924,
   528734635, 1541459225]

/-- `k` bytes of `n`, big-endian. -/
def beBytes : Nat → Nat → List Nat
  | 0, _ => []
  | k + 1, n => beBytes k (n / 256) ++ [n % 256]

/-- SHA-256 padding: append `0x80`, zero bytes up to 56 mod 64, then the
bit length as 8 big-endian bytes. -/
def sha256Pad (msg : List Nat) : List Nat :=
  let padZeros := (119 - msg.length % 64) % 64
  msg ++ [0x80] ++ List.replicate padZeros 0 ++ beBytes 8 (8 * msg.length)

/-- Group bytes into big-endian 32-bit words. -/
def bytesToWords : List Nat → List Nat
  | a :: b :: c :: d :: rest =>
      (a * 16777216 + b * 65536 + c * 256 + d) :: bytesToWords rest
  | _ => []

/-- One extension step of the SHA-256 message schedule: the next word computed
from the words produced so far. -/
def scheduleStep (w : List Nat) : Nat :=
  let t := w.length
  w32 (smallSigma1 (w.getD (t - 2) 0) + w.getD (t - 7) 0 +
       smallSigma0 (w.getD (t - 15) 0) + w.getD (t - 16) 0)

/-- Extend the message schedule by `n` further words. -/
def extendSchedule : Nat → List Nat → List Nat
  | 0, w => w
  | n + 1, w => extendSchedule n (w ++ [scheduleStep w])

/-- The 8-word working state of the SHA-256 compression loop. -/
structure Sha256State where
  a : Nat
  b : Nat
  c : Nat
  d : Nat
  e : Nat
  f : Nat
  g : Nat
  h : Nat

/-- One round of the SHA-256 compression loop, fed a pair of a round constant
and a schedule word. -/
def sha256Round (st : Sha256State) (kw : Nat × Nat) : Sha256State :=
  let t1 := w32 (st.h + bigSigma1 st.e + shaCh st.e st.f st.g + kw.1 + kw.2)
  let t2 := w32 (bigSigma0 st.a + shaMaj st.a st.b st.c)
  ⟨w32 (t1 + t2), st.a, st.b, st.c, w32 (st.d + t1), st.e, st.f, st.g⟩

/-- Compress one 64-byte block into the running 8-word hash value. -/
def sha256Compress (hv : List Nat) (block : List Nat) : List Nat :=
  let w := extendSchedule 48 (bytesToWords block)
  let init : Sha256State :=
    ⟨hv.getD 0 0, hv.getD 1 0, hv.getD 2 0, hv.getD 3 0,
     hv.getD 4 0, hv.getD 5 0, hv.getD 6 0, hv.getD 7 0⟩
  let s := (sha256K.zip w).foldl sha256Round init
  [w32 (hv.getD 0 0 + s.a), w32 (hv.getD 1 0 + s.b), w32 (hv.getD 2 0 + s.c),
   w32 (hv.getD 3 0 + s.d), w32 (hv.getD 4 0 + s.e), w32 (hv.getD 5 0 + s.f),
   w32 (hv.getD 6 0 + s.g), w32 (hv.getD 7 0 + s.h)]

/-- Fold the compression function over all 64-byte blocks; the fuel argument
is the byte count, which bounds the number of blocks. -/
def sha256Blocks : Nat → List Nat → List Nat → List Nat
  | 0, _, hv => hv
  | fuel + 1, msg, hv =>
      match msg with
      | [] => hv
      | _ => sha256Blocks fuel (msg.drop 64) (sha256Compress hv (msg.take 64))

/-- SHA-256 of a byte list, as the 32-byte digest. -/
def sha256 (msg : List Nat) : List Nat :=
  let padded := sha256Pad msg
  let hh := sha256Blocks padded.length padded sha256Init
  hh.foldr (fun wrd acc => beBytes 4 wrd ++ acc) []

/-! ## HMAC-SHA256 (RFC 2104) and hex encoding -/

/-- HMAC-SHA256 with byte-list key and message, as in `hmac.new(key, msg,
hashlib.sha256)`. -/
def hmacSha256 (key msg : List Nat) : List Nat :=
  let k0 := if key.length > 64 then sha256 key else key
  let kpad := k0 ++ List.replicate (64 - k0.length) 0
  let ipadKey := kpad.map (fun b => b ^^^ 0x36)
  let opadKey := kpad.map (fun b => b ^^^ 0x5c)
  sha256 (opadKey ++ sha256 (ipadKey ++ msg))

/-- One lowercase hex digit. -/
def hexChar (n : Nat) : Char := "0123456789abcdef".data.getD n '0'

/-- Lowercase hex encoding of a byte list, as `.hexdigest()` returns it. -/
def hexdigest (bytes : List Nat) : String :=
  ⟨bytes.foldr (fun b acc => hexChar (b / 16) :: hexChar (b % 16) :: acc) []⟩

/-- UTF-8 encoding of one code point. -/
def utf8EncodeChar (c : Char) : List Nat :=
  let n := c.toNat
  if n < 0x80 then [n]
  else if n < 0x800 then
    [0xC0 ||| (n >>> 6), 0x80 ||| (n &&& 0x3F)]
  else if n < 0x10000 then
    [0xE0 ||| (n >>> 12), 0x80 ||| ((n >>> 6) &&& 0x3F), 0x80 ||| (n &&& 0x3F)]
  else
    [0xF0 ||| (n >>> 18), 0x80 ||| ((n >>> 12) &&& 0x3F),
     0x80 ||| ((n >>> 6) &&& 0x3F), 0x80 ||| (n &&& 0x3F)]

/-- UTF-8 encoding of a string, as Python `str.encode("utf-8")`. -/
def utf8Encode (s : String) : List Nat :=
  s.data.foldr (fun c acc => utf8EncodeChar c ++ acc) []

/-! ## Python string operations used by the verifier -/

/-- Python `s.startswith(pre)`: prefix test on the code-point sequence. -/
def pyStartsWith (s pre : String) : Bool := pre.data.isPrefixOf s.data

/-- Python slicing `s[n:]`: drop the first `n` code points. -/
def pyDrop (s : String) (n : Nat) : String := ⟨s.data.drop n⟩

/-- Exceptions that can be raised while a request is processed, as far as the
listener distinguishes them: `json.JSONDecodeError` gets its own `except`
clause, everything else falls into `except Exception`. -/
inductive PyExc where
  | jsonDecodeError : PyExc
  | unicodeDecodeError : PyExc
  | keyError : PyExc
  | typeError : PyExc
  | attributeError : PyExc
  deriving DecidableEq

/-! ## `hmac.compare_digest`, instrumented with its step count -/

/-- The scan loop of `hmac.compare_digest`: walk the whole zipped contents,
OR-ing together the XOR of each pair of code points, and count the
iterations.  Returns (accumulated difference, number of iterations). -/
def tscmpRun : List (Char × Char) → Nat → Nat × Nat
  | [], acc => (acc, 0)
  | p :: ps, acc =>
      let r := tscmpRun ps (acc ||| (p.1.toNat ^^^ p.2.toNat))
      (r.1, r.2 + 1)

/-- Whether a Python `str` is ASCII-only, the precondition
`hmac.compare_digest` places on `str` arguments. -/
def isAsciiStr (s : String) : Bool := s.data.all (fun c => c.toNat < 128)

/-- `hmac.compare_digest a b` on `str` arguments: raises `TypeError` when
either string contains a non-ASCII character; otherwise true iff the lengths
agree and the full scan accumulates no difference.  No short-circuiting on
the first mismatch. -/
def compare_digest (a b : String) : Except PyExc Bool :=
  if isAsciiStr a && isAsciiStr b then
    Except.ok ((a.data.length == b.data.length) &&
      ((tscmpRun (a.data.zip b.data) 0).1 == 0))
  else
    Except.error PyExc.typeError

/-- Number of scan-loop iterations the comparison of `a` with `b` performs
when the scan runs. -/
def compare_digest_steps (a b : String) : Nat :=
  (tscmpRun (a.data.zip b.data) 0).2

/-! ## The signature verifier (`verify_webhook_signature`) -/

/-- `verify_webhook_signature(payload, signature, secret)` from
`github_webhook_listener.py`.  The `signature` argument is the raw
`X-Hub-Signature-256` header value, absent headers arriving as `none`
(Python `None`); Python's `not signature` is true exactly for `None` and
the empty string.  The result is `Except.ok` of the returned Boolean, or
`Except.error` for the `TypeError` that `hmac.compare_digest` raises when
the header suffix contains a non-ASCII character. -/
def verify_webhook_signature (payload : List Nat) (signature : Option String)
    (secret : String) : Except PyExc Bool :=
  match signature with
  | none => Except.ok false
  | some sig =>
    if sig.data.isEmpty || secret.data.isEmpty then Except.ok false
    else if !pyStartsWith sig "sha256=" then Except.ok false
    else
      let expected_signature := pyDrop sig 7
      let calculated_signature :=
        hexdigest (hmacSha256 (utf8Encode secret) payload)
      compare_digest expected_signature calculated_signature

/-- The correctly formed signature header for a payload under a secret:
the string "sha256=" followed by the lowercase hex HMAC-SHA256 digest. -/
def mkSig (secret : String) (payload : List Nat) : String :=
  "sha256=" ++ hexdigest (hmacSha256 (utf8Encode secret) payload)

/-! ## JSON values and the Python dictionary operations the listener uses -/

/-- Decoded JSON values, the possible results of `json.loads`. -/
inductive Json where
  | null : Json
  | bool : Bool → Json
  | num : Int → Json
  | str : String → Json
  | arr : List Json → Json
  | obj : List (String × Json) → Json

/-- Field lookup in a JSON object's association list. -/
def lookupField : List (String × Json) → String → Option Json
  | [], _ => none
  | (k, v) :: rest, key => if k == key then some v else lookupField rest key

/-- Python `d.get(key)`: `None` when the key is missing, raises
`AttributeError` when the receiver is not a dictionary. -/
def Json.pyGet : Json → String → Except PyExc (Option Json)
  | Json.obj fields, key => Except.ok (lookupField fields key)
  | _, _ => Except.error PyExc.attributeError

/-- Python `d[key]`: raises `KeyError` when the key is missing and
`TypeError` when the receiver is not a dictionary. -/
def Json.pyIndex : Json → String → Except PyExc Json
  | Json.obj fields, key =>
      match lookupField fields key with
      | some v => Except.ok v
      | none => Except.error PyExc.keyError
  | _, _ => Except.error PyExc.typeError

/-- Python truthiness of a JSON value. -/
def Json.truthy : Json → Bool
  | Json.null => false
  | Json.bool b => b
  | Json.num n => n != 0
  | Json.str s => !s.data.isEmpty
  | Json.arr xs => !xs.isEmpty
  | Json.obj fs => !fs.isEmpty

/-- Python truthiness of a possibly-`None` value. -/
def truthyOpt : Option Json → Bool
  | none => false
  | some j => j.truthy

/-- Python `action == lit` where `action` came from `data.get(...)` and `lit`
is a string literal: true exactly when the value is that string. -/
def actionIs (action : Option Json) (lit : String) : Bool :=
  match action with
  | some (Json.str t) => t == lit
  | _ => false

/-! ## The six pull-request handlers

Each handler is embedded as the sequence of payload accesses its body
performs (its `logging` calls are pure side effects with no influence on
control flow beyond the exceptions the key accesses can raise). -/

/-- `handle_pull_request_opened`. -/
def handle_pull_request_opened (payload : Json) : Except PyExc Unit := do
  let pr ← payload.pyIndex "pull_request"
  let repo ← payload.pyIndex "repository"
  let sender ← payload.pyIndex "sender"
  let _ ← pr.pyIndex "number"
  let _ ← pr.pyIndex "title"
  let _ ← repo.pyIndex "full_name"
  let _ ← sender.pyIndex "login"
  let _ ← pr.pyIndex "html_url"
  pure ()

/-- `handle_pull_request_closed`. -/
def handle_pull_request_closed (payload : Json) : Except PyExc Unit := do
  let pr ← payload.pyIndex "pull_request"
  let repo ← payload.pyIndex "repository"
  let sender ← payload.pyIndex "sender"
  let _ ← pr.pyIndex "number"
  let _ ← pr.pyIndex "title"
  let _ ← repo.pyIndex "full_name"
  let _ ← sender.pyIndex "login"
  let _ ← pr.pyIndex "merged"
  pure ()

/-- `handle_pull_request_merged`. -/
def handle_pull_request_merged (payload : Json) : Except PyExc Unit := do
  let pr ← payload.pyIndex "pull_request"
  let repo ← payload.pyIndex "repository"
  let sender ← payload.pyIndex "sender"
  let _ ← pr.pyIndex "number"
  let _ ← pr.pyIndex "title"
  let _ ← repo.pyIndex "full_name"
  let _ ← sender.pyIndex "login"
  let _ ← pr.pyIndex "merge_commit_sha"
  pure ()

/-- The pattern `if v: logger.info(f"...{v[key]}")` of the review-requested
handler: access `v[key]` only when `v` is truthy. -/
def logIfTruthy (v : Option Json) (key : String) : Except PyExc Unit :=
  if truthyOpt v then
    match v with
    | some j => do let _ ← j.pyIndex key; pure ()
    | none => pure ()
  else pure ()

/-- `handle_pull_request_review_requested`. -/
def handle_pull_request_review_requested (payload : Json) : Except PyExc Unit := do
  let pr ← payload.pyIndex "pull_request"
  let repo ← payload.pyIndex "repository"
  let requested_reviewer ← payload.pyGet "requested_reviewer"
  let requested_team ← payload.pyGet "requested_team"
  let _ ← pr.pyIndex "number"
  let _ ← pr.pyIndex "title"
  let _ ← repo.pyIndex "full_name"
  let _ ← logIfTruthy requested_reviewer "login"
  logIfTruthy requested_team "name"

/-- `handle_pull_request_review_submitted`. -/
def handle_pull_request_review_submitted (payload : Json) : Except PyExc Unit := do
  let pr ← payload.pyIndex "pull_request"
  let repo ← payload.pyIndex "repository"
  let review ← payload.pyIndex "review"
  let sender ← payload.pyIndex "sender"
  let _ ← pr.pyIndex "number"
  let _ ← pr.pyIndex "title"
  let _ ← repo.pyIndex "full_name"
  let _ ← sender.pyIndex "login"
  let _ ← review.pyIndex "state"
  let b ← review.pyGet "body"
  if truthyOpt b then
    let _ ← review.pyIndex "body"
    pure ()
  else
    pure ()

/-- `handle_pull_request_synchronize`. -/
def handle_pull_request_synchronize (payload : Json) : Except PyExc Unit := do
  let pr ← payload.pyIndex "pull_request"
  let repo ← payload.pyIndex "repository"
  let sender ← payload.pyIndex "sender"
  let _ ← pr.pyIndex "number"
  let _ ← pr.pyIndex "title"
  let _ ← repo.pyIndex "full_name"
  let _ ← sender.pyIndex "login"
  let head ← pr.pyIndex "head"
  let _ ← head.pyIndex "sha"
  pure ()

/-! ## The webhook endpoint -/

/-- Names for the six pull-request handlers, used to record invocations. -/
inductive PRHandler where
  | opened : PRHandler
  | closed : PRHandler
  | merged : PRHandler
  | review_requested : PRHandler
  | submitted : PRHandler
  | synchronize : PRHandler
  deriving DecidableEq

/-- Run the handler a name stands for. -/
def runPRHandler : PRHandler → Json → Except PyExc Unit
  | PRHandler.opened, d => handle_pull_request_opened d
  | PRHandler.closed, d => handle_pull_request_closed d
  | PRHandler.merged, d => handle_pull_request_merged d
  | PRHandler.review_requested, d => handle_pull_request_review_requested d
  | PRHandler.submitted, d => handle_pull_request_review_submitted d
  | PRHandler.synchronize, d => handle_pull_request_synchronize d

/-- The `elif` chain of the `pull_request` branch: which handler, if any, the
action value selects.  Comparisons are Python `==` against string
literals. -/
def prActionHandler (action : Option Json) : Option PRHandler :=
  if actionIs action "opened" then some PRHandler.opened
  else if actionIs action "closed" then some PRHandler.closed
  else if actionIs action "merged" then some PRHandler.merged
  else if actionIs action "review_requested" then some PRHandler.review_requested
  else if actionIs action "submitted" then some PRHandler.submitted
  else if actionIs action "synchronize" then some PRHandler.synchronize
  else none

/-- The outcomes of `json.loads(payload.decode("utf-8"))`, which is Python
standard library code outside this repository: the byte payload fails UTF-8
decoding, fails JSON parsing, or yields a JSON value.  The webhook model is
parameterised over this parse function. -/
inductive ParseOutcome where
  | unicodeError : ParseOutcome
  | jsonError : ParseOutcome
  | ok : Json → ParseOutcome

/-- An inbound request as the handler sees it: raw body bytes plus the two
headers the code reads (absent headers are `none`). -/
structure WebhookRequest where
  body : List Nat
  xHubSignature256 : Option String
  xGitHubEvent : Option String

/-- The observable outcome of one webhook call: HTTP status, JSON response
body, and the handler invocations (each with the envelope passed to it). -/
structure WebhookResult where
  status : Nat
  body : Json
  calls : List (PRHandler × Json)

/-- Response body `{"error": "Invalid signature"}`. -/
def invalidSignatureBody : Json := Json.obj [("error", Json.str "Invalid signature")]

/-- Response body `{"error": "Invalid JSON"}`. -/
def invalidJSONBody : Json := Json.obj [("error", Json.str "Invalid JSON")]

/-- Response body `{"error": "Internal server error"}`. -/
def internalErrorBody : Json := Json.obj [("error", Json.str "Internal server error")]

/-- Response body `{"message": "Webhook received successfully"}`. -/
def successBody : Json := Json.obj [("message", Json.str "Webhook received successfully")]

/-- Response body `{"message": "Pong"}`. -/
def pongBody : Json := Json.obj [("message", Json.str "Pong")]

/-- The body of the `try` block of `webhook()`: either a status/body pair
produced by a `return`, or the exception that escaped; paired with the
handler invocations made on the way. -/
def webhookInner (parse : List Nat → ParseOutcome) (secret : String)
    (req : WebhookRequest) : Except PyExc (Nat × Json) × List (PRHandler × Json) :=
  match verify_webhook_signature req.body req.xHubSignature256 secret with
  | Except.error e => (Except.error e, [])
  | Except.ok v =>
    if !v then
      (Except.ok (401, invalidSignatureBody), [])
    else
    match parse req.body with
    | ParseOutcome.unicodeError => (Except.error PyExc.unicodeDecodeError, [])
    | ParseOutcome.jsonError => (Except.error PyExc.jsonDecodeError, [])
    | ParseOutcome.ok data =>
      if req.xGitHubEvent = some "pull_request" then
        match data.pyGet "action" with
        | Except.error e => (Except.error e, [])
        | Except.ok action =>
          match prActionHandler action with
          | none => (Except.ok (200, successBody), [])
          | some h =>
            match runPRHandler h data with
            | Except.error e => (Except.error e, [(h, data)])
            | Except.ok _ => (Except.ok (200, successBody), [(h, data)])
      else if req.xGitHubEvent = some "ping" then
        (Except.ok (200, pongBody), [])
      else
        (Except.ok (200, successBody), [])

/-- The `webhook()` endpoint: the `try` body with its two `except` clauses,
`json.JSONDecodeError` mapping to 400 and any other exception to 500. -/
def webhook (parse : List Nat → ParseOutcome) (secret : String)
    (req : WebhookRequest) : WebhookResult :=
  match webhookInner parse secret req with
  | (Except.ok (st, body), calls) => ⟨st, body, calls⟩
  | (Except.error PyExc.jsonDecodeError, calls) => ⟨400, invalidJSONBody, calls⟩
  | (Except.error _, calls) => ⟨500, internalErrorBody, calls⟩

/-- The route table of the specification: action string to handler. -/
def routeTable : List (String × PRHandler) :=
  [("opened", PRHandler.opened), ("closed", PRHandler.closed),
   ("merged", PRHandler.merged), ("review_requested", PRHandler.review_requested),
   ("submitted", PRHandler.submitted), ("synchronize", PRHandler.synchronize)]

/-! ## Helper lemmas -/

/-- The code-point sequence of a concatenation. -/
theorem string_data_append (a b : String) : (a ++ b).data = a.data ++ b.data := rfl

/-- A list is a Boolean prefix of itself followed by anything. -/
theorem isPrefixOf_append_self (l t : List Char) : l.isPrefixOf (l ++ t) = true := by
  induction l with
  | nil => simp [List.isPrefixOf]
  | cons c cs ih => simp [List.isPrefixOf, ih]

/-- Dropping the length of the left part of a concatenation. -/
theorem drop_append_length (l t : List Char) : (l ++ t).drop l.length = t := by
  induction l with
  | nil => rfl
  | cons c cs ih => simp [ih]

/-- The scan loop accumulates nothing over a list zipped with itself. -/
theorem tscmpRun_self (l : List Char) (acc : Nat) :
    (tscmpRun (l.zip l) acc).1 = acc := by
  induction l generalizing acc with
  | nil => rfl
  | cons c cs ih =>
    simp only [List.zip_cons_cons, tscmpRun, Nat.xor_self, Nat.or_zero]
    exact ih acc

/-- Every hex digit character is ASCII. -/
theorem hexChar_ascii (n : Nat) : (hexChar n).toNat < 128 := by
  have hmem : ∀ c ∈ "0123456789abcdef".data, c.toNat < 128 := by decide
  unfold hexChar
  unfold List.getD
  cases h : "0123456789abcdef".data.get? n with
  | none => simp [h]
  | some c =>
    simp only [h, Option.getD_some]
    exact hmem c (List.get?_mem h)

/-- Hex digests are ASCII-only strings. -/
theorem hexdigest_ascii (bytes : List Nat) : isAsciiStr (hexdigest bytes) = true := by
  unfold isAsciiStr
  rw [List.all_eq_true]
  induction bytes with
  | nil => intro c hc; cases hc
  | cons b bs ih =>
    intro c hc
    have hdata : (hexdigest (b :: bs)).data
        = hexChar (b / 16) :: hexChar (b % 16) :: (hexdigest bs).data := rfl
    rw [hdata] at hc
    simp only [List.mem_cons] at hc
    rcases hc with rfl | rfl | hc
    · simpa using hexChar_ascii (b / 16)
    · simpa using hexChar_ascii (b % 16)
    · exact ih c hc

/-- `compare_digest` accepts an ASCII string compared with itself. -/
theorem compare_digest_self (s : String) (hascii : isAsciiStr s = true) :
    compare_digest s s = Except.ok true := by
  simp [compare_digest, hascii, tscmpRun_self]

/-- `compare_digest` either returns a Boolean or raises `TypeError`; no other
exception can escape it. -/
theorem compare_digest_ok_or_typeError (a b : String) :
    (∃ r : Bool, compare_digest a b = Except.ok r) ∨
      compare_digest a b = Except.error PyExc.typeError := by
  unfold compare_digest
  split
  · exact Or.inl ⟨_, rfl⟩
  · exact Or.inr rfl

/-- The scan loop's step count is the length of the zipped list, whatever its
contents. -/
theorem tscmpRun_steps (l : List (Char × Char)) (acc : Nat) :
    (tscmpRun l acc).2 = l.length := by
  induction l generalizing acc with
  | nil => rfl
  | cons p ps ih => simp [tscmpRun, ih]

/-- The verifier accepts the correctly formed signature header whenever the
secret is nonempty. -/
theorem verify_correct_signature (payload : List Nat) (secret : String)
    (hs : secret.data ≠ []) :
    verify_webhook_signature payload (some (mkSig secret payload)) secret
      = Except.ok true := by
  have h7 : "sha256=".data = ['s', 'h', 'a', '2', '5', '6', '='] := rfl
  have hdata : (mkSig secret payload).data
      = "sha256=".data ++ (hexdigest (hmacSha256 (utf8Encode secret) payload)).data :=
    string_data_append _ _
  have hsecret : secret.data.isEmpty = false := by
    cases h : secret.data with
    | nil => exact absurd h hs
    | cons c cs => rfl
  have hsig : (mkSig secret payload).data.isEmpty = false := by
    rw [hdata, h7]; rfl
  have hpre : pyStartsWith (mkSig secret payload) "sha256=" = true := by
    unfold pyStartsWith
    rw [hdata]
    exact isPrefixOf_append_self _ _
  have hdrop : pyDrop (mkSig secret payload) 7
      = hexdigest (hmacSha256 (utf8Encode secret) payload) := by
    unfold pyDrop
    rw [hdata, h7]
    exact congrArg String.mk
      (drop_append_length ['s', 'h', 'a', '2', '5', '6', '='] _)
  simp only [verify_webhook_signature, hsecret, hsig, hpre, hdrop,
    Bool.or_self, Bool.not_true, Bool.false_eq_true, if_false]
  exact compare_digest_self _ (hexdigest_ascii _)

/-- `d[key]` never raises `json.JSONDecodeError`. -/
theorem pyIndex_ne_jsonError (j : Json) (k : String) :
    j.pyIndex k ≠ Except.error PyExc.jsonDecodeError := by
  cases j <;>
    first
    | (simp only [Json.pyIndex]; split <;> simp)
    | simp [Json.pyIndex]

/-- `d.get(key)` never raises `json.JSONDecodeError`. -/
theorem pyGet_ne_jsonError (j : Json) (k : String) :
    j.pyGet k ≠ Except.error PyExc.jsonDecodeError := by
  cases j <;> simp [Json.pyGet]

/-- A bind of computations that cannot raise `JSONDecodeError` cannot raise
it either. -/
theorem bind_ne_jsonError {α β : Type} {m : Except PyExc α} {f : α → Except PyExc β}
    (hm : m ≠ Except.error PyExc.jsonDecodeError)
    (hf : ∀ a, f a ≠ Except.error PyExc.jsonDecodeError) :
    (m >>= f) ≠ Except.error PyExc.jsonDecodeError := by
  cases m with
  | error e => simpa [Bind.bind, Except.bind] using hm
  | ok a => simpa [Bind.bind, Except.bind] using hf a

/-- `pure` cannot raise. -/
theorem pure_ne_jsonError {α : Type} (x : α) :
    (pure x : Except PyExc α) ≠ Except.error PyExc.jsonDecodeError := by
  simp [pure, Except.pure]

/-- The conditional key access of `logIfTruthy` cannot raise
`JSONDecodeError`. -/
theorem logIfTruthy_ne_jsonError (v : Option Json) (k : String) :
    logIfTruthy v k ≠ Except.error PyExc.jsonDecodeError := by
  unfold logIfTruthy
  split
  · cases v with
    | none => exact pure_ne_jsonError _
    | some j =>
      exact bind_ne_jsonError (pyIndex_ne_jsonError _ _) fun _ => pure_ne_jsonError _
  · exact pure_ne_jsonError _

/-- No pull-request handler can raise `json.JSONDecodeError`: their only
exception sources are dictionary accesses. -/
theorem runPRHandler_ne_jsonError (h : PRHandler) (d : Json) :
    runPRHandler h d ≠ Except.error PyExc.jsonDecodeError := by
  cases h <;>
    simp only [runPRHandler, handle_pull_request_opened, handle_pull_request_closed,
      handle_pull_request_merged, handle_pull_request_review_requested,
      handle_pull_request_review_submitted, handle_pull_request_synchronize]
  case opened =>
    refine bind_ne_jsonError (pyIndex_ne_jsonError _ _) fun pr => ?_
    refine bind_ne_jsonError (pyIndex_ne_jsonError _ _) fun repo => ?_
    refine bind_ne_jsonError (pyIndex_ne_jsonError _ _) fun sender => ?_
    refine bind_ne_jsonError (pyIndex_ne_jsonError _ _) fun _ => ?_
    refine bind_ne_jsonError (pyIndex_ne_jsonError _ _) fun _ => ?_
    refine bind_ne_jsonError (pyIndex_ne_jsonError _ _) fun _ => ?_
    refine bind_ne_jsonError (pyIndex_ne_jsonError _ _) fun _ => ?_
    exact bind_ne_jsonError (pyIndex_ne_jsonError _ _) fun _ => pure_ne_jsonError _
  case closed =>
    refine bind_ne_jsonError (pyIndex_ne_jsonError _ _) fun pr => ?_
    refine bind_ne_jsonError (pyIndex_ne_jsonError _ _) fun repo => ?_
    refine bind_ne_jsonError (pyIndex_ne_jsonError _ _) fun sender => ?_
    refine bind_ne_jsonError (pyIndex_ne_jsonError _ _) fun _ => ?_
    refine bind_ne_jsonError (pyIndex_ne_jsonError _ _) fun _ => ?_
    refine bind_ne_jsonError (pyIndex_ne_jsonError _ _) fun _ => ?_
    refine bind_ne_jsonError (pyIndex_ne_jsonError _ _) fun _ => ?_
    exact bind_ne_jsonError (pyIndex_ne_jsonError _ _) fun _ => pure_ne_jsonError _
  case merged =>
    refine bind_ne_jsonError (pyIndex_ne_jsonError _ _) fun pr => ?_
    refine bind_ne_jsonError (pyIndex_ne_jsonError _ _) fun repo => ?_
    refine bind_ne_jsonError (pyIndex_ne_jsonError _ _) fun sender => ?_
    refine bind_ne_jsonError (pyIndex_ne_jsonError _ _) fun _ => ?_
    refine bind_ne_jsonError (pyIndex_ne_jsonError _ _) fun _ => ?_
    refine bind_ne_jsonError (pyIndex_ne_jsonError _ _) fun _ => ?_
    refine bind_ne_jsonError (pyIndex_ne_jsonError _ _) fun _ => ?_
    exact bind_ne_jsonError (pyIndex_ne_jsonError _ _) fun _ => pure_ne_jsonError _
  case review_requested =>
    refine bind_ne_jsonError (pyIndex_ne_jsonError _ _) fun pr => ?_
    refine bind_ne_jsonError (pyIndex_ne_jsonError _ _) fun repo => ?_
    refine bind_ne_jsonError (pyGet_ne_jsonError _ _) fun rv => ?_
    refine bind_ne_jsonError (pyGet_ne_jsonError _ _) fun tm => ?_
    refine bind_ne_jsonError (pyIndex_ne_jsonError _ _) fun _ => ?_
    refine bind_ne_jsonError (pyIndex_ne_jsonError _ _) fun _ => ?_
    refine bind_ne_jsonError (pyIndex_ne_jsonError _ _) fun _ => ?_
    exact bind_ne_jsonError (logIfTruthy_ne_jsonError _ _) fun _ =>
      logIfTruthy_ne_jsonError _ _
  case submitted =>
    refine bind_ne_jsonError (pyIndex_ne_jsonError _ _) fun pr => ?_
    refine bind_ne_jsonError (pyIndex_ne_jsonError _ _) fun repo => ?_
    refine bind_ne_jsonError (pyIndex_ne_jsonError _ _) fun review => ?_
    refine bind_ne_jsonError (pyIndex_ne_jsonError _ _) fun sender => ?_
    refine bind_ne_jsonError (pyIndex_ne_jsonError _ _) fun _ => ?_
    refine bind_ne_jsonError (pyIndex_ne_jsonError _ _) fun _ => ?_
    refine bind_ne_jsonError (pyIndex_ne_jsonError _ _) fun _ => ?_
    refine bind_ne_jsonError (pyIndex_ne_jsonError _ _) fun _ => ?_
    refine bind_ne_jsonError (pyIndex_ne_jsonError _ _) fun _ => ?_
    refine bind_ne_jsonError (pyGet_ne_jsonError _ _) fun b => ?_
    split
    · exact bind_ne_jsonError (pyIndex_ne_jsonError _ _) fun _ => pure_ne_jsonError _
    · exact pure_ne_jsonError _
  case synchronize =>
    refine bind_ne_jsonError (pyIndex_ne_jsonError _ _) fun pr => ?_
    refine bind_ne_jsonError (pyIndex_ne_jsonError _ _) fun repo => ?_
    refine bind_ne_jsonError (pyIndex_ne_jsonError _ _) fun sender => ?_
    refine bind_ne_jsonError (pyIndex_ne_jsonError _ _) fun _ => ?_
    refine bind_ne_jsonError (pyIndex_ne_jsonError _ _) fun _ => ?_
    refine bind_ne_jsonError (pyIndex_ne_jsonError _ _) fun _ => ?_
    refine bind_ne_jsonError (pyIndex_ne_jsonError _ _) fun _ => ?_
    refine bind_ne_jsonError (pyIndex_ne_jsonError _ _) fun head => ?_
    exact bind_ne_jsonError (pyIndex_ne_jsonError _ _) fun _ => pure_ne_jsonError _

/-! ## Behaviour of the endpoint on each kind of request -/

/-- A request whose signature fails verification is answered 401 with the
invalid-signature body before anything else happens. -/
theorem webhook_verify_fail (parse : List Nat → ParseOutcome) (secret : String)
    (req : WebhookRequest)
    (hv : verify_webhook_signature req.body req.xHubSignature256 secret = Except.ok false) :
    webhook parse secret req = ⟨401, invalidSignatureBody, []⟩ := by
  unfold webhook webhookInner
  rw [hv]
  rfl

/-- A verified request whose body fails JSON parsing is answered 400 with the
invalid-JSON body and no handler runs. -/
theorem webhook_json_error (parse : List Nat → ParseOutcome) (secret : String)
    (req : WebhookRequest)
    (hv : verify_webhook_signature req.body req.xHubSignature256 secret = Except.ok true)
    (hp : parse req.body = ParseOutcome.jsonError) :
    webhook parse secret req = ⟨400, invalidJSONBody, []⟩ := by
  unfold webhook webhookInner
  rw [hv, hp]
  rfl

/-- A verified request whose body is not valid UTF-8 raises
`UnicodeDecodeError`, which the `except json.JSONDecodeError` clause does
not catch: the request is answered 500 with the internal-error body and no
handler runs. -/
theorem webhook_unicode_error (parse : List Nat → ParseOutcome) (secret : String)
    (req : WebhookRequest)
    (hv : verify_webhook_signature req.body req.xHubSignature256 secret = Except.ok true)
    (hp : parse req.body = ParseOutcome.unicodeError) :
    webhook parse secret req = ⟨500, internalErrorBody, []⟩ := by
  unfold webhook webhookInner
  rw [hv, hp]
  rfl

/-- A verified, parsed `pull_request` request whose action selects a handler
invokes exactly that handler on the full parsed envelope; the response is the
success response when the handler returns and the internal-error response
when it raises. -/
theorem webhook_pr_matched (parse : List Nat → ParseOutcome) (secret : String)
    (req : WebhookRequest) (data : Json) (act : Option Json) (h : PRHandler)
    (hv : verify_webhook_signature req.body req.xHubSignature256 secret = Except.ok true)
    (hp : parse req.body = ParseOutcome.ok data)
    (he : req.xGitHubEvent = some "pull_request")
    (ha : data.pyGet "action" = Except.ok act)
    (hh : prActionHandler act = some h) :
    webhook parse secret req =
      match runPRHandler h data with
      | Except.ok _ => ⟨200, successBody, [(h, data)]⟩
      | Except.error _ => ⟨500, internalErrorBody, [(h, data)]⟩ := by
  unfold webhook webhookInner
  cases hr : runPRHandler h data with
  | ok u => simp [hv, hp, he, ha, hh, hr]
  | error e =>
    have hne : e ≠ PyExc.jsonDecodeError := by
      intro hcon
      exact runPRHandler_ne_jsonError h data (hcon ▸ hr)
    cases e <;>
      first
      | exact absurd rfl hne
      | simp [hv, hp, he, ha, hh, hr]

/-- A verified, parsed `pull_request` request whose action selects no handler
is answered with the generic success response and no handler runs. -/
theorem webhook_pr_unmatched (parse : List Nat → ParseOutcome) (secret : String)
    (req : WebhookRequest) (data : Json) (act : Option Json)
    (hv : verify_webhook_signature req.body req.xHubSignature256 secret = Except.ok true)
    (hp : parse req.body = ParseOutcome.ok data)
    (he : req.xGitHubEvent = some "pull_request")
    (ha : data.pyGet "action" = Except.ok act)
    (hh : prActionHandler act = none) :
    webhook parse secret req = ⟨200, successBody, []⟩ := by
  unfold webhook webhookInner
  simp [hv, hp, he, ha, hh]

/-- A verified, parsed `ping` request is answered 200 Pong and no handler
runs. -/
theorem webhook_ping (parse : List Nat → ParseOutcome) (secret : String)
    (req : WebhookRequest) (data : Json)
    (hv : verify_webhook_signature req.body req.xHubSignature256 secret = Except.ok true)
    (hp : parse req.body = ParseOutcome.ok data)
    (he : req.xGitHubEvent = some "ping") :
    webhook parse secret req = ⟨200, pongBody, []⟩ := by
  unfold webhook webhookInner
  rw [hv, hp, he]
  rfl

/-- A verified, parsed request of any other event type is answered with the
generic success response and no handler runs. -/
theorem webhook_other_event (parse : List Nat → ParseOutcome) (secret : String)
    (req : WebhookRequest) (data : Json)
    (hv : verify_webhook_signature req.body req.xHubSignature256 secret = Except.ok true)
    (hp : parse req.body = ParseOutcome.ok data)
    (he1 : req.xGitHubEvent ≠ some "pull_request")
    (he2 : req.xGitHubEvent ≠ some "ping") :
    webhook parse secret req = ⟨200, successBody, []⟩ := by
  unfold webhook webhookInner
  rw [hv, hp]
  simp only [he1, he2, if_false, Bool.not_true]
  rfl

/-- The handler invocations recorded by the endpoint are exactly those of the
`try` body: the `except` clauses add none. -/
theorem webhook_calls_eq (parse : List Nat → ParseOutcome) (secret : String)
    (req : WebhookRequest) :
    (webhook parse secret req).calls = (webhookInner parse secret req).2 := by
  unfold webhook
  split <;> simp_all

/-- The `try` body invokes at most one handler. -/
theorem webhookInner_calls_le_one (parse : List Nat → ParseOutcome) (secret : String)
    (req : WebhookRequest) : (webhookInner parse secret req).2.length ≤ 1 := by
  unfold webhookInner
  repeat' split
  all_goals simp

/-- The `elif` chain agrees with the specification's route table on every
string action value. -/
theorem prActionHandler_eq_lookup (a : String) :
    prActionHandler (some (Json.str a)) = routeTable.lookup a := by
  by_cases h1 : a = "opened"
  · simp [prActionHandler, actionIs, routeTable, List.lookup, h1]
  by_cases h2 : a = "closed"
  · simp [prActionHandler, actionIs, routeTable, List.lookup, h1, h2]
  by_cases h3 : a = "merged"
  · simp [prActionHandler, actionIs, routeTable, List.lookup, h1, h2, h3]
  by_cases h4 : a = "review_requested"
  · simp [prActionHandler, actionIs, routeTable, List.lookup, h1, h2, h3, h4]
  by_cases h5 : a = "submitted"
  · simp [prActionHandler, actionIs, routeTable, List.lookup, h1, h2, h3, h4, h5]
  by_cases h6 : a = "synchronize"
  · simp [prActionHandler, actionIs, routeTable, List.lookup, h1, h2, h3, h4, h5, h6]
  have e1 : (a == "opened") = false := by simp [h1]
  have e2 : (a == "closed") = false := by simp [h2]
  have e3 : (a == "merged") = false := by simp [h3]
  have e4 : (a == "review_requested") = false := by simp [h4]
  have e5 : (a == "submitted") = false := by simp [h5]
  have e6 : (a == "synchronize") = false := by simp [h6]
  simp [prActionHandler, actionIs, routeTable, List.lookup, e1, e2, e3, e4, e5, e6]

/-! ## Concrete fixtures for witnesses and counterexamples -/

/-- A parse oracle that yields a fixed JSON value (a body that is valid
JSON decoding to `j`). -/
def parseConst (j : Json) : List Nat → ParseOutcome := fun _ => ParseOutcome.ok j

/-- A parse oracle for a body that is not valid JSON. -/
def parseReject : List Nat → ParseOutcome := fun _ => ParseOutcome.jsonError

/-- A parse oracle for a body that is not even valid UTF-8 (so in particular
not valid JSON): `payload.decode("utf-8")` raises `UnicodeDecodeError`. -/
def parseNotUtf8 : List Nat → ParseOutcome := fun _ => ParseOutcome.unicodeError

/-- An empty-body request carrying the correct signature for secret "k" and
the given event-type header. -/
def signedReq (event : Option String) : WebhookRequest :=
  { body := [], xHubSignature256 := some (mkSig "k" []), xGitHubEvent := event }

/-- An empty-body request with no signature header at all. -/
def unsignedReq : WebhookRequest :=
  { body := [], xHubSignature256 := none, xGitHubEvent := some "pull_request" }

/-- An envelope whose action is "opened" but which lacks the keys the opened
handler dereferences. -/
def openedEnvelope : Json := Json.obj [("action", Json.str "opened")]

/-- An envelope with action "opened" and every key the opened handler
dereferences. -/
def fullOpenedEnvelope : Json :=
  Json.obj
    [("action", Json.str "opened"),
     ("pull_request",
        Json.obj [("number", Json.num 7), ("title", Json.str "t"),
                  ("html_url", Json.str "u")]),
     ("repository", Json.obj [("full_name", Json.str "r")]),
     ("sender", Json.obj [("login", Json.str "l")])]

/-- An envelope whose action is "merged". -/
def mergedEnvelope : Json := Json.obj [("action", Json.str "merged")]

/-- An envelope whose action is outside the route table. -/
def deletedEnvelope : Json := Json.obj [("action", Json.str "deleted")]

/-! ## The claims -/

/-- C1 (counterexample): with the empty secret, the correctly formed
signature header is still rejected, because the verifier refuses empty
secrets before comparing digests.  This refutes the claim for the instance
payload = [], secret = "". -/
theorem spec_C1_counterexample :
    verify_webhook_signature [] (some (mkSig "" [])) "" = Except.ok false := by
  have h : ("" : String).data.isEmpty = true := rfl
  simp [verify_webhook_signature, h]

/-- C1 (amended): for every payload and every NONEMPTY secret, presenting
"sha256=" followed by the lowercase hex HMAC-SHA256 of the payload keyed by
the secret makes `verify_webhook_signature` return true. -/
theorem spec_C1_verify_roundtrip (payload : List Nat) (secret : String)
    (hs : secret.data ≠ []) :
    verify_webhook_signature payload (some (mkSig secret payload)) secret
      = Except.ok true :=
  verify_correct_signature payload secret hs

/-- C1 (witness): the amended claim at payload [3] and secret "k". -/
theorem spec_C1_witness :
    ("k" : String).data ≠ [] ∧
    verify_webhook_signature [3] (some (mkSig "k" [3])) "k" = Except.ok true :=
  ⟨by decide, spec_C1_verify_roundtrip [3] "k" (by decide)⟩

/-- C2 (counterexample): the verifier can raise: with a nonempty secret and
the well-formed but non-ASCII header "sha256=\u00ff" (reachable, since the
HTTP layer decodes header bytes as latin-1), `hmac.compare_digest` raises
`TypeError` on the non-ASCII suffix, so `verify_webhook_signature` does not
return a boolean.  This refutes the never-throws conjunct of the claim. -/
theorem spec_C2_counterexample :
    verify_webhook_signature [] (some "sha256=\u00ff") "k"
        = Except.error PyExc.typeError ∧
    ∀ b : Bool, verify_webhook_signature [] (some "sha256=\u00ff") "k"
        ≠ Except.ok b := by
  have h0 : verify_webhook_signature [] (some "sha256=\u00ff") "k"
      = Except.error PyExc.typeError := rfl
  refine ⟨h0, ?_⟩
  intro b hcon
  rw [h0] at hcon
  exact Except.noConfusion hcon

/-- C2 (amended): the verifier returns false whenever the signature header
is absent, empty, or lacks the "sha256=" prefix, and whenever the secret is
empty — regardless of the other arguments; in every other case it either
returns a boolean or raises exactly the `TypeError` of `compare_digest`,
and it does return a boolean (never throws) whenever the header suffix
after "sha256=" is ASCII-only — the computed hex digest always is. -/
theorem spec_C2_verify_behaviour (payload : List Nat)
    (signature : Option String) (secret : String) :
    ((∃ b : Bool, verify_webhook_signature payload signature secret = Except.ok b) ∨
      verify_webhook_signature payload signature secret
        = Except.error PyExc.typeError) ∧
    verify_webhook_signature payload none secret = Except.ok false ∧
    (∀ sig : String, sig.data = [] →
       verify_webhook_signature payload (some sig) secret = Except.ok false) ∧
    (∀ sig : String, pyStartsWith sig "sha256=" = false →
       verify_webhook_signature payload (some sig) secret = Except.ok false) ∧
    (secret.data = [] →
       verify_webhook_signature payload signature secret = Except.ok false) ∧
    (∀ sig : String, isAsciiStr (pyDrop sig 7) = true →
       ∃ b : Bool, verify_webhook_signature payload (some sig) secret
         = Except.ok b) := by
  refine ⟨?_, rfl, ?_, ?_, ?_, ?_⟩
  · cases signature with
    | none => exact Or.inl ⟨false, rfl⟩
    | some sig =>
      simp only [verify_webhook_signature]
      split
      · exact Or.inl ⟨false, rfl⟩
      · split
        · exact Or.inl ⟨false, rfl⟩
        · exact compare_digest_ok_or_typeError _ _
  · intro sig h
    simp [verify_webhook_signature, h]
  · intro sig h
    simp [verify_webhook_signature, h]
  · intro h
    cases signature with
    | none => rfl
    | some sig => simp [verify_webhook_signature, h]
  · intro sig hascii
    simp only [verify_webhook_signature]
    split
    · exact ⟨false, rfl⟩
    · split
      · exact ⟨false, rfl⟩
      · unfold compare_digest
        rw [hascii, hexdigest_ascii]
        exact ⟨_, rfl⟩

/-- C2 (witness): the amended claim at concrete inputs: the dichotomy, each
rejection case, and ASCII-suffix totality at the header "sha256=00". -/
theorem spec_C2_witness :
    ((∃ b : Bool, verify_webhook_signature [1] (some "sha256=00") "k" = Except.ok b) ∨
      verify_webhook_signature [1] (some "sha256=00") "k"
        = Except.error PyExc.typeError) ∧
    verify_webhook_signature [1] none "k" = Except.ok false ∧
    verify_webhook_signature [1] (some "") "k" = Except.ok false ∧
    verify_webhook_signature [1] (some "nope") "k" = Except.ok false ∧
    verify_webhook_signature [1] (some "sha256=00") "" = Except.ok false ∧
    (∃ b : Bool, verify_webhook_signature [1] (some "sha256=00") "k" = Except.ok b) := by
  obtain ⟨w1, w2, w3, w4, -, w6⟩ := spec_C2_verify_behaviour [1] (some "sha256=00") "k"
  obtain ⟨-, -, -, -, w5, -⟩ := spec_C2_verify_behaviour [1] (some "sha256=00") ""
  exact ⟨w1, w2, w3 "" rfl, w4 "nope" (by decide), w5 rfl, w6 "sha256=00" (by decide)⟩

/-- C3: the digest comparison is constant-time in the compared contents: the
number of scan-loop iterations `compare_digest` performs is determined by
the lengths of the two strings alone, never by where or whether they
differ. -/
theorem spec_C3_compare_digest_constant_time (a b a2 b2 : String)
    (ha : a.data.length = a2.data.length) (hb : b.data.length = b2.data.length) :
    compare_digest_steps a b = compare_digest_steps a2 b2 := by
  unfold compare_digest_steps
  rw [tscmpRun_steps, tscmpRun_steps, List.length_zip, List.length_zip, ha, hb]

/-- C3 (witness): equal-length pairs that differ everywhere take the same
number of steps. -/
theorem spec_C3_witness :
    ("ab" : String).data.length = ("xy" : String).data.length ∧
    ("cd" : String).data.length = ("zw" : String).data.length ∧
    compare_digest_steps "ab" "cd" = compare_digest_steps "xy" "zw" :=
  ⟨rfl, rfl, spec_C3_compare_digest_constant_time "ab" "cd" "xy" "zw" rfl rfl⟩

/-- C4: the pull-request dispatcher routes by exact, case-sensitive string
match against the route table: the `elif` chain agrees with the table on
every string action, the table binds "merged" and "closed" to distinct
handlers, and a verified, parsed pull-request request whose action the table
maps to a handler invokes exactly that handler on the full envelope,
whatever else (such as a merged flag) the envelope contains. -/
theorem spec_C4_route_table :
    (∀ a : String, prActionHandler (some (Json.str a)) = routeTable.lookup a) ∧
    routeTable.lookup "merged" = some PRHandler.merged ∧
    routeTable.lookup "closed" = some PRHandler.closed ∧
    (∀ (parse : List Nat → ParseOutcome) (secret : String) (req : WebhookRequest)
       (data : Json) (a : String) (h : PRHandler),
       verify_webhook_signature req.body req.xHubSignature256 secret = Except.ok true →
       parse req.body = ParseOutcome.ok data →
       req.xGitHubEvent = some "pull_request" →
       data.pyGet "action" = Except.ok (some (Json.str a)) →
       routeTable.lookup a = some h →
       (webhook parse secret req).calls = [(h, data)]) := by
  refine ⟨prActionHandler_eq_lookup, rfl, rfl, ?_⟩
  intro parse secret req data a h hv hp he ha hl
  have hh : prActionHandler (some (Json.str a)) = some h := by
    rw [prActionHandler_eq_lookup]; exact hl
  rw [webhook_pr_matched parse secret req data (some (Json.str a)) h hv hp he ha hh]
  cases runPRHandler h data <;> rfl

/-- C4 (witness): a verified request with action "merged" invokes the merged
handler on the envelope. -/
theorem spec_C4_witness :
    (webhook (parseConst mergedEnvelope) "k" (signedReq (some "pull_request"))).calls
      = [(PRHandler.merged, mergedEnvelope)] := by
  have hv : verify_webhook_signature (signedReq (some "pull_request")).body
      (signedReq (some "pull_request")).xHubSignature256 "k" = Except.ok true :=
    verify_correct_signature [] "k" (by decide)
  exact spec_C4_route_table.2.2.2 (parseConst mergedEnvelope) "k"
    (signedReq (some "pull_request")) mergedEnvelope "merged" PRHandler.merged
    hv rfl rfl rfl rfl

/-- C5 (counterexample): a body that is not valid UTF-8 — hence not valid
JSON — under a correct signature over its raw bytes is answered 500 with
the internal-error body, not 400: the `UnicodeDecodeError` of
`payload.decode("utf-8")` escapes the `except json.JSONDecodeError` clause.
This refutes the claim that every verified, JSON-invalid body gets 400. -/
theorem spec_C5_counterexample :
    webhook parseNotUtf8 "k" (signedReq (some "ping")) = ⟨500, internalErrorBody, []⟩ ∧
    (webhook parseNotUtf8 "k" (signedReq (some "ping"))).status ≠ 400 := by
  have hv : verify_webhook_signature (signedReq (some "ping")).body
      (signedReq (some "ping")).xHubSignature256 "k" = Except.ok true :=
    verify_correct_signature [] "k" (by decide)
  have h := webhook_unicode_error parseNotUtf8 "k" (signedReq (some "ping")) hv rfl
  exact ⟨h, by rw [h]; decide⟩

/-- C5 (amended): a request with no signature header at all is answered 401
with the invalid-signature body, no handler runs, and the outcome is the
same under every parse oracle (the body is never parsed).  A verified
request whose body fails JSON parsing (`json.JSONDecodeError`) is answered
400 with the invalid-JSON body; a verified request whose body is not even
valid UTF-8 is answered 500 with the internal-error body, since the decode
error escapes the JSON-error clause.  In both cases no handler runs. -/
theorem spec_C5_error_paths :
    (∀ (parse : List Nat → ParseOutcome) (secret : String) (req : WebhookRequest),
       req.xHubSignature256 = none →
       webhook parse secret req = ⟨401, invalidSignatureBody, []⟩) ∧
    (∀ (parse parse2 : List Nat → ParseOutcome) (secret : String) (req : WebhookRequest),
       req.xHubSignature256 = none →
       webhook parse secret req = webhook parse2 secret req) ∧
    (∀ (parse : List Nat → ParseOutcome) (secret : String) (req : WebhookRequest),
       verify_webhook_signature req.body req.xHubSignature256 secret = Except.ok true →
       parse req.body = ParseOutcome.jsonError →
       webhook parse secret req = ⟨400, invalidJSONBody, []⟩) ∧
    (∀ (parse : List Nat → ParseOutcome) (secret : String) (req : WebhookRequest),
       verify_webhook_signature req.body req.xHubSignature256 secret = Except.ok true →
       parse req.body = ParseOutcome.unicodeError →
       webhook parse secret req = ⟨500, internalErrorBody, []⟩) := by
  have h401 : ∀ (parse : List Nat → ParseOutcome) (secret : String) (req : WebhookRequest),
      req.xHubSignature256 = none →
      webhook parse secret req = ⟨401, invalidSignatureBody, []⟩ := by
    intro parse secret req hsig
    apply webhook_verify_fail
    rw [hsig]
    rfl
  refine ⟨h401, ?_, webhook_json_error, webhook_unicode_error⟩
  intro parse parse2 secret req hsig
  rw [h401 parse secret req hsig, h401 parse2 secret req hsig]

/-- C5 (witness): the 401 path on a signatureless request under two distinct
parse oracles, the 400 path on a signed but JSON-invalid body, and the 500
path on a signed non-UTF-8 body. -/
theorem spec_C5_witness :
    webhook (parseConst Json.null) "k" unsignedReq = ⟨401, invalidSignatureBody, []⟩ ∧
    webhook (parseConst Json.null) "k" unsignedReq = webhook parseReject "k" unsignedReq ∧
    webhook parseReject "k" (signedReq (some "ping")) = ⟨400, invalidJSONBody, []⟩ ∧
    webhook parseNotUtf8 "k" (signedReq none) = ⟨500, internalErrorBody, []⟩ := by
  have hv : verify_webhook_signature (signedReq (some "ping")).body
      (signedReq (some "ping")).xHubSignature256 "k" = Except.ok true :=
    verify_correct_signature [] "k" (by decide)
  have hv2 : verify_webhook_signature (signedReq none).body
      (signedReq none).xHubSignature256 "k" = Except.ok true :=
    verify_correct_signature [] "k" (by decide)
  exact ⟨spec_C5_error_paths.1 (parseConst Json.null) "k" unsignedReq rfl,
    spec_C5_error_paths.2.1 (parseConst Json.null) parseReject "k" unsignedReq rfl,
    spec_C5_error_paths.2.2.1 parseReject "k" (signedReq (some "ping")) hv rfl,
    spec_C5_error_paths.2.2.2 parseNotUtf8 "k" (signedReq none) hv2 rfl⟩

/-- C6 (counterexample): a verified, JSON-valid pull-request request whose
opened handler raises (the envelope lacks the "pull_request" key) is
answered 500 with the internal-error body — not the normal success
response — so a handler exception does alter the HTTP response. -/
theorem spec_C6_counterexample :
    webhook (parseConst openedEnvelope) "k" (signedReq (some "pull_request"))
        = ⟨500, internalErrorBody, [(PRHandler.opened, openedEnvelope)]⟩ ∧
    (webhook (parseConst openedEnvelope) "k" (signedReq (some "pull_request"))).status
        ≠ 200 := by
  have hv : verify_webhook_signature (signedReq (some "pull_request")).body
      (signedReq (some "pull_request")).xHubSignature256 "k" = Except.ok true :=
    verify_correct_signature [] "k" (by decide)
  have h := webhook_pr_matched (parseConst openedEnvelope) "k"
    (signedReq (some "pull_request")) openedEnvelope (some (Json.str "opened"))
    PRHandler.opened hv rfl rfl rfl rfl
  have hrun : runPRHandler PRHandler.opened openedEnvelope
      = Except.error PyExc.keyError := rfl
  rw [hrun] at h
  exact ⟨h, by rw [h]; decide⟩

/-- C6 (amended): a handler exception never propagates out of the endpoint,
but it does change the response: when the routed handler returns, the
request is answered with the normal success response; when it raises, the
request is answered 500 with the internal-error body.  Either way the
handler was invoked exactly once on the full envelope. -/
theorem spec_C6_handler_boundary (parse : List Nat → ParseOutcome) (secret : String)
    (req : WebhookRequest) (data : Json) (act : Option Json) (h : PRHandler)
    (hv : verify_webhook_signature req.body req.xHubSignature256 secret = Except.ok true)
    (hp : parse req.body = ParseOutcome.ok data)
    (he : req.xGitHubEvent = some "pull_request")
    (ha : data.pyGet "action" = Except.ok act)
    (hh : prActionHandler act = some h) :
    (runPRHandler h data = Except.ok () →
       webhook parse secret req = ⟨200, successBody, [(h, data)]⟩) ∧
    (∀ e : PyExc, runPRHandler h data = Except.error e →
       webhook parse secret req = ⟨500, internalErrorBody, [(h, data)]⟩) := by
  have hw := webhook_pr_matched parse secret req data act h hv hp he ha hh
  constructor
  · intro hok
    rw [hw, hok]
  · intro e herr
    rw [hw, herr]

/-- C6 (witness): the same endpoint answers 200 when the opened handler
completes on a full envelope and 500 when it raises on a bare one. -/
theorem spec_C6_witness :
    webhook (parseConst fullOpenedEnvelope) "k" (signedReq (some "pull_request"))
        = ⟨200, successBody, [(PRHandler.opened, fullOpenedEnvelope)]⟩ ∧
    webhook (parseConst openedEnvelope) "k" (signedReq (some "pull_request"))
        = ⟨500, internalErrorBody, [(PRHandler.opened, openedEnvelope)]⟩ := by
  have hv : verify_webhook_signature (signedReq (some "pull_request")).body
      (signedReq (some "pull_request")).xHubSignature256 "k" = Except.ok true :=
    verify_correct_signature [] "k" (by decide)
  constructor
  · exact (spec_C6_handler_boundary (parseConst fullOpenedEnvelope) "k"
      (signedReq (some "pull_request")) fullOpenedEnvelope (some (Json.str "opened"))
      PRHandler.opened hv rfl rfl rfl rfl).1 rfl
  · exact (spec_C6_handler_boundary (parseConst openedEnvelope) "k"
      (signedReq (some "pull_request")) openedEnvelope (some (Json.str "opened"))
      PRHandler.opened hv rfl rfl rfl rfl).2 PyExc.keyError rfl

/-- C7 (counterexample): a request with a valid signature and event type
"ping" whose body is not valid JSON is answered 400, not 200 Pong — JSON
parsing happens before the ping branch, so the response is not independent
of the payload content. -/
theorem spec_C7_counterexample :
    webhook parseReject "k" (signedReq (some "ping")) = ⟨400, invalidJSONBody, []⟩ ∧
    (webhook parseReject "k" (signedReq (some "ping"))).status ≠ 200 := by
  have hv : verify_webhook_signature (signedReq (some "ping")).body
      (signedReq (some "ping")).xHubSignature256 "k" = Except.ok true :=
    verify_correct_signature [] "k" (by decide)
  have h := webhook_json_error parseReject "k" (signedReq (some "ping")) hv rfl
  exact ⟨h, by rw [h]; decide⟩

/-- C7 (amended): a request with a valid signature, event type "ping", and a
body that parses as JSON is answered 200 with the Pong body, independent of
the parsed payload's content, and no handler is invoked. -/
theorem spec_C7_ping (parse : List Nat → ParseOutcome) (secret : String)
    (req : WebhookRequest) (data : Json)
    (hv : verify_webhook_signature req.body req.xHubSignature256 secret = Except.ok true)
    (hp : parse req.body = ParseOutcome.ok data)
    (he : req.xGitHubEvent = some "ping") :
    webhook parse secret req = ⟨200, pongBody, []⟩ :=
  webhook_ping parse secret req data hv hp he

/-- C7 (witness): a verified ping request with a JSON body. -/
theorem spec_C7_witness :
    webhook (parseConst Json.null) "k" (signedReq (some "ping"))
      = ⟨200, pongBody, []⟩ := by
  have hv : verify_webhook_signature (signedReq (some "ping")).body
      (signedReq (some "ping")).xHubSignature256 "k" = Except.ok true :=
    verify_correct_signature [] "k" (by decide)
  exact spec_C7_ping (parseConst Json.null) "k" (signedReq (some "ping"))
    Json.null hv rfl rfl

/-- C8: a verified, parsed pull-request request whose action value the
`elif` chain does not match is answered with the generic success response
and no handler runs; so is a verified, parsed request whose event type is
neither "pull_request" nor "ping". -/
theorem spec_C8_unrouted (parse : List Nat → ParseOutcome) (secret : String)
    (req : WebhookRequest) (data : Json)
    (hv : verify_webhook_signature req.body req.xHubSignature256 secret = Except.ok true)
    (hp : parse req.body = ParseOutcome.ok data) :
    (∀ act : Option Json, req.xGitHubEvent = some "pull_request" →
       data.pyGet "action" = Except.ok act → prActionHandler act = none →
       webhook parse secret req = ⟨200, successBody, []⟩) ∧
    (req.xGitHubEvent ≠ some "pull_request" → req.xGitHubEvent ≠ some "ping" →
       webhook parse secret req = ⟨200, successBody, []⟩) := by
  constructor
  · intro act he ha hh
    exact webhook_pr_unmatched parse secret req data act hv hp he ha hh
  · intro he1 he2
    exact webhook_other_event parse secret req data hv hp he1 he2

/-- C8 (witness): a pull-request request with the unrouted action "deleted",
and an "issues" event, both answered with the generic success response. -/
theorem spec_C8_witness :
    webhook (parseConst deletedEnvelope) "k" (signedReq (some "pull_request"))
      = ⟨200, successBody, []⟩ ∧
    webhook (parseConst Json.null) "k" (signedReq (some "issues"))
      = ⟨200, successBody, []⟩ := by
  have hv1 : verify_webhook_signature (signedReq (some "pull_request")).body
      (signedReq (some "pull_request")).xHubSignature256 "k" = Except.ok true :=
    verify_correct_signature [] "k" (by decide)
  have hv2 : verify_webhook_signature (signedReq (some "issues")).body
      (signedReq (some "issues")).xHubSignature256 "k" = Except.ok true :=
    verify_correct_signature [] "k" (by decide)
  constructor
  · exact (spec_C8_unrouted (parseConst deletedEnvelope) "k"
      (signedReq (some "pull_request")) deletedEnvelope hv1 rfl).1
      (some (Json.str "deleted")) rfl rfl rfl
  · exact (spec_C8_unrouted (parseConst Json.null) "k"
      (signedReq (some "issues")) Json.null hv2 rfl).2 (by decide) (by decide)

/-- C9: every request invokes at most one handler, and a verified, parsed
pull-request request with action "opened" invokes exactly the opened handler
once, on the full parsed envelope. -/
theorem spec_C9_at_most_one_handler :
    (∀ (parse : List Nat → ParseOutcome) (secret : String) (req : WebhookRequest),
       (webhook parse secret req).calls.length ≤ 1) ∧
    (∀ (parse : List Nat → ParseOutcome) (secret : String) (req : WebhookRequest)
       (data : Json),
       verify_webhook_signature req.body req.xHubSignature256 secret = Except.ok true →
       parse req.body = ParseOutcome.ok data →
       req.xGitHubEvent = some "pull_request" →
       data.pyGet "action" = Except.ok (some (Json.str "opened")) →
       (webhook parse secret req).calls = [(PRHandler.opened, data)]) := by
  constructor
  · intro parse secret req
    rw [webhook_calls_eq]
    exact webhookInner_calls_le_one parse secret req
  · intro parse secret req data hv hp he ha
    rw [webhook_pr_matched parse secret req data (some (Json.str "opened"))
      PRHandler.opened hv hp he ha rfl]
    cases runPRHandler PRHandler.opened data <;> rfl

/-- C9 (witness): the invariant and the opened dispatch at concrete
requests. -/
theorem spec_C9_witness :
    (webhook (parseConst Json.null) "k" unsignedReq).calls.length ≤ 1 ∧
    (webhook (parseConst openedEnvelope) "k" (signedReq (some "pull_request"))).calls
      = [(PRHandler.opened, openedEnvelope)] := by
  have hv : verify_webhook_signature (signedReq (some "pull_request")).body
      (signedReq (some "pull_request")).xHubSignature256 "k" = Except.ok true :=
    verify_correct_signature [] "k" (by decide)
  exact ⟨spec_C9_at_most_one_handler.1 (parseConst Json.null) "k" unsignedReq,
    spec_C9_at_most_one_handler.2 (parseConst openedEnvelope) "k"
      (signedReq (some "pull_request")) openedEnvelope hv rfl rfl rfl⟩

/-- C10: a verified, parsed request with no X-GitHub-Event header at all
falls through both event-type comparisons and is answered with the generic
success response, with no handler invoked — the absent header is never
rejected. -/
theorem spec_C10_missing_event_header (parse : List Nat → ParseOutcome)
    (secret : String) (req : WebhookRequest) (data : Json)
    (hv : verify_webhook_signature req.body req.xHubSignature256 secret = Except.ok true)
    (hp : parse req.body = ParseOutcome.ok data)
    (he : req.xGitHubEvent = none) :
    webhook parse secret req = ⟨200, successBody, []⟩ := by
  apply webhook_other_event parse secret req data hv hp <;> simp [he]

/-- C10 (witness): a verified request with a JSON body and no event
header. -/
theorem spec_C10_witness :
    webhook (parseConst Json.null) "k" (signedReq none) = ⟨200, successBody, []⟩ := by
  have hv : verify_webhook_signature (signedReq none).body
      (signedReq none).xHubSignature256 "k" = Except.ok true :=
    verify_correct_signature [] "k" (by decide)
  exact spec_C10_missing_event_header (parseConst Json.null) "k" (signedReq none)
    Json.null hv rfl rfl
